import Mathlib

/-!
Shallow embedding of the CoAP observe server example
(`examples/iot/coap/ipv6/server_observe/main.c`): the led3 resource
callback, the notification fan-out over registered observers, the periodic
scheduler tick and the confirmable-notification completion callback,
together with the observer-registry operations they call (the registry
itself lives in the SDK observe library, outside these sources, and is
modelled from the design document).
-/

namespace ServerObserve

/-- Constant `#define COMMAND_OFF 0x30` in main.c. -/
def COMMAND_OFF : Nat := 0x30

/-- Constant `#define COMMAND_ON 0x31` in main.c. -/
def COMMAND_ON : Nat := 0x31

/-- Constant `#define COMMAND_TOGGLE 0x32` in main.c. -/
def COMMAND_TOGGLE : Nat := 0x32

/-- Constant `#define OBSERVE_NOTIFY_DELTA_MAX_AGE 2` in main.c: seconds prior to a
max-age timeout at which an updated state is pushed to the observers. -/
def OBSERVE_NOTIFY_DELTA_MAX_AGE : Nat := 2

/-- The counter `m_observer_sequence_num` is a C `uint32_t`; arithmetic on it wraps
at `2 ^ 32`. -/
def UINT32_MOD : Nat := 2 ^ 32

/-- The CoAP Observe option number (RFC7641); values compare mod `2 ^ 24`. -/
def OBSERVE_SEQ_MOD : Nat := 2 ^ 24

/-- CoAP option number of the Observe option. -/
def COAP_OPT_OBSERVE : Nat := 6

/-- CoAP option number of the Max-Age option. -/
def COAP_OPT_MAX_AGE : Nat := 14

/-- CoAP message types (`coap_msg_type_t`). -/
inductive CoapMsgType where
  | CON
  | NON
  | ACK
  | RST
deriving DecidableEq

/-- The CoAP method and response codes this example uses. -/
inductive CoapCode where
  | GET
  | PUT
  | CODE_205_CONTENT
  | CODE_204_CHANGED
  | CODE_400_BAD_REQUEST
  | CODE_405_METHOD_NOT_ALLOWED
  | CODE_415_UNSUPPORTED_CONTENT_FORMAT
  | OTHER_CODE
deriving DecidableEq

/-- Content formats (`coap_content_type_t`) relevant to the example. -/
inductive CoapContentType where
  | PLAIN_TEXT
  | APP_JSON
  | APP_LINK_FORMAT
  | OTHER_CT
deriving DecidableEq

/-- A remote endpoint (`coap_remote_t`): address bytes and port. -/
structure CoapRemote where
  addr : List Nat
  port_number : Nat
deriving DecidableEq

/-- The mask `m_led3.ct_support_mask = COAP_CT_MASK_APP_JSON | COAP_CT_MASK_PLAIN_TEXT`. -/
def led3_ct_support_mask : CoapContentType → Bool
  | CoapContentType.APP_JSON => true
  | CoapContentType.PLAIN_TEXT => true
  | _ => false

/-- Identifier standing for the address of the static `m_led3` resource. -/
def LED3_RESOURCE_ID : Nat := 3

/-- A `coap_observer_t` record: remote endpoint, token, watched resource and
negotiated content format. -/
structure CoapObserver where
  remote : CoapRemote
  token : List Nat
  resource_id : Nat
  ct : CoapContentType
deriving DecidableEq

/-- Identity of registry entries: the (resource, remote endpoint, token)
tuple (the design document's uniqueness key). -/
def same_tuple (a b : CoapObserver) : Bool :=
  decide (a.resource_id = b.resource_id ∧ a.remote = b.remote ∧ a.token = b.token)

/-- Modelled from the spec: `coap_observe_server_register` (the observe
library sources are not part of this example). Re-registering an identical
(resource, remote, token) tuple refreshes the entry rather than duplicating
it; otherwise the call fails with `Full` (here `none`) when the bounded
table is at capacity, and appends the new entry when it is not. -/
def coap_observe_server_register (capacity : Nat) (registry : List CoapObserver)
    (observer : CoapObserver) : Option (List CoapObserver) :=
  if registry.any (fun o => same_tuple o observer) then
    some (registry.map (fun o => if same_tuple o observer then observer else o))
  else if capacity ≤ registry.length then
    none
  else
    some (registry ++ [observer])

/-- Modelled from the spec: `coap_observe_server_search` — deterministic
first match on the (remote endpoint, resource) pair, returning a handle
(here the index of the entry). -/
def coap_observe_server_search (registry : List CoapObserver)
    (remote : CoapRemote) (resource_id : Nat) : Option Nat :=
  match registry with
  | [] => none
  | o :: rest =>
    if o.remote = remote ∧ o.resource_id = resource_id then some 0
    else (coap_observe_server_search rest remote resource_id).map (fun h => h + 1)

/-- Modelled from the spec: `coap_observe_server_unregister` — removes the
entry behind the handle. -/
def coap_observe_server_unregister (registry : List CoapObserver)
    (handle : Nat) : List CoapObserver :=
  registry.eraseIdx handle

/-- The observers of one resource, in registry order — the sequence the
`coap_observe_server_next_get` loop of `notify_all_led3_subscribers`
walks. -/
def observers_of (registry : List CoapObserver) (resource_id : Nat) :
    List CoapObserver :=
  registry.filter (fun o => decide (o.resource_id = resource_id))

/-- A CoAP message as this example builds it: type, code, message id, token,
uint-valued options in insertion order, payload bytes, remote endpoint. -/
structure CoapMessage where
  type : CoapMsgType
  code : CoapCode
  id : Nat
  token : List Nat
  options : List (Nat × Nat)
  payload : List Nat
  remote : CoapRemote
deriving DecidableEq

/-- The mutable state of main.c the claims touch: the LED3 level, the
global `m_observer_sequence_num`, the observer table, `m_led3.expire_time`,
`m_led3.max_age` and the static `msg_count` of `app_coap_time_tick`. -/
structure AppState where
  led3_is_on : Bool
  observer_sequence_num : Nat
  registry : List CoapObserver
  expire_time : Nat
  max_age : Nat
  msg_count : Nat
deriving DecidableEq

/-- Bytes of the static string `{"led3": True}` in `led_value_get`. -/
def response_str_true : List Nat :=
  [0x7B, 0x22, 0x6C, 0x65, 0x64, 0x33, 0x22, 0x3A, 0x20,
   0x54, 0x72, 0x75, 0x65, 0x7D]

/-- Bytes of the static string `{"led3": False}` in `led_value_get`. -/
def response_str_false : List Nat :=
  [0x7B, 0x22, 0x6C, 0x65, 0x64, 0x33, 0x22, 0x3A, 0x20,
   0x46, 0x61, 0x6C, 0x73, 0x65, 0x7D]

/-- Function `led_value_get`: JSON body for `COAP_CT_APP_JSON`, otherwise the
plain-text `sprintf("%d", LED_IS_ON(LED_THREE))`, i.e. `"1"` or `"0"`. -/
def led_value_get (content_type : CoapContentType) (led3_is_on : Bool) :
    List Nat :=
  if content_type = CoapContentType.APP_JSON then
    if led3_is_on then response_str_true else response_str_false
  else
    if led3_is_on then [0x31] else [0x30]

/-- One notification message of `notify_all_led3_subscribers`: code 2.05,
the observer's token and remote, an Observe option holding the sequence
number taken at send time, a Max-Age option holding `m_led3.expire_time`,
and the representation for the observer's content format. -/
def notify_observer_message (type : CoapMsgType) (seq expire : Nat)
    (led3_is_on : Bool) (observer : CoapObserver) : CoapMessage :=
  { type := type
    code := CoapCode.CODE_205_CONTENT
    id := 0
    token := observer.token
    options := [(COAP_OPT_OBSERVE, seq), (COAP_OPT_MAX_AGE, expire)]
    payload := led_value_get observer.ct led3_is_on
    remote := observer.remote }

/-- The `while (coap_observe_server_next_get ...)` loop of
`notify_all_led3_subscribers`: one message per observer, the sequence
counter post-incremented (as a `uint32_t`) per message. Returns the final
counter and the messages in send order. -/
def notify_loop (type : CoapMsgType) (led3_is_on : Bool) (expire : Nat) :
    Nat → List CoapObserver → Nat × List CoapMessage
  | seq, [] => (seq, [])
  | seq, observer :: rest =>
    let msg := notify_observer_message type seq expire led3_is_on observer
    let next := notify_loop type led3_is_on expire ((seq + 1) % UINT32_MOD) rest
    (next.1, msg :: next.2)

/-- Function `notify_all_led3_subscribers`: fan a notification of the given type out
to every observer of `m_led3`, threading `m_observer_sequence_num`. -/
def notify_all_led3_subscribers (type : CoapMsgType) (s : AppState) :
    AppState × List CoapMessage :=
  let r := notify_loop type s.led3_is_on s.expire_time s.observer_sequence_num
            (observers_of s.registry LED3_RESOURCE_ID)
  ({ s with observer_sequence_num := r.1 }, r.2)

/-- Function `app_coap_time_tick`: when `m_led3.expire_time` has fallen to the
low-water mark, reset it to `max_age` and fire a pass — confirmable when
`msg_count % 4 == 0`, best-effort otherwise — then advance `msg_count`;
otherwise just decrement the countdown. -/
def app_coap_time_tick (s : AppState) : AppState × List CoapMessage :=
  if s.expire_time ≤ 0 + OBSERVE_NOTIFY_DELTA_MAX_AGE then
    let s1 := { s with expire_time := s.max_age }
    let r :=
      if s.msg_count % 4 = 0 then
        notify_all_led3_subscribers CoapMsgType.CON s1
      else
        notify_all_led3_subscribers CoapMsgType.NON s1
    ({ r.1 with msg_count := s.msg_count + 1 }, r.2)
  else
    ({ s with expire_time := s.expire_time - 1 }, [])

/-- An inbound request as `led3_callback` consumes it: header type and
code, message id, token, payload, the Accept set, the decoded Observe
option value when present, and the remote endpoint. -/
structure CoapRequest where
  type : CoapMsgType
  code : CoapCode
  id : Nat
  token : List Nat
  payload : List Nat
  accept : List CoapContentType
  observe : Option Nat
  remote : CoapRemote
deriving DecidableEq

/-- Modelled from the spec: `coap_message_ct_match_select` (codec library,
not part of these sources) — the first common content type between the
request's Accept set and the resource's support mask, failing when the
intersection is empty. -/
def coap_message_ct_match_select (accept : List CoapContentType)
    (support_mask : CoapContentType → Bool) : Option CoapContentType :=
  accept.find? support_mask

/-- The response type selection at the head of `led3_callback`: NON echoes
NON, CON gets a piggy-backed ACK, anything else keeps the `memset` zero
(which is `COAP_TYPE_CON`). -/
def response_type_for : CoapMsgType → CoapMsgType
  | CoapMsgType.NON => CoapMsgType.NON
  | CoapMsgType.CON => CoapMsgType.ACK
  | _ => CoapMsgType.CON

/-- The response skeleton `led3_callback` builds before the method switch:
code 4.05, echoed message id and token, no options, no payload. -/
def base_response (req : CoapRequest) : CoapMessage :=
  { type := response_type_for req.type
    code := CoapCode.CODE_405_METHOD_NOT_ALLOWED
    id := req.id
    token := req.token
    options := []
    payload := []
    remote := req.remote }

/-- Function `led3_callback`. Result: updated state, the response message, and the
notification messages fired on the way out (`notify_all_led3_subscribers`
runs for every PUT). The PUT branch dereferences `p_request->p_payload[0]`
with no length check; the embedding makes that access fallible, so the
whole callback returns `none` exactly when the access is out of bounds. -/
def led3_callback (capacity : Nat) (req : CoapRequest) (s : AppState) :
    Option (AppState × CoapMessage × List CoapMessage) :=
  let resp := base_response req
  match req.code with
  | CoapCode.GET =>
    match coap_message_ct_match_select req.accept led3_ct_support_mask with
    | none =>
      -- None of the accepted content formats are supported: 4.15, type RST.
      some (s, { resp with code := CoapCode.CODE_415_UNSUPPORTED_CONTENT_FORMAT
                           type := CoapMsgType.RST }, [])
    | some ct_to_use =>
      match req.observe with
      | some observe_option =>
        if observe_option = 0 then
          let observer : CoapObserver :=
            { remote := req.remote
              token := req.token
              resource_id := LED3_RESOURCE_ID
              ct := ct_to_use }
          match coap_observe_server_register capacity s.registry observer with
          | some registry2 =>
            some ({ s with registry := registry2
                           observer_sequence_num :=
                             (s.observer_sequence_num + 1) % UINT32_MOD },
                  { resp with code := CoapCode.CODE_205_CONTENT
                              options := [(COAP_OPT_OBSERVE, s.observer_sequence_num),
                                          (COAP_OPT_MAX_AGE, s.expire_time)]
                              payload := led_value_get ct_to_use s.led3_is_on }, [])
          | none =>
            -- Registration failed: handle this as a normal message.
            some (s, { resp with code := CoapCode.CODE_205_CONTENT
                                 payload := led_value_get ct_to_use s.led3_is_on }, [])
        else
          match coap_observe_server_search s.registry req.remote LED3_RESOURCE_ID with
          | some handle =>
            some ({ s with registry := coap_observe_server_unregister s.registry handle },
                  { resp with code := CoapCode.CODE_205_CONTENT
                              payload := led_value_get ct_to_use s.led3_is_on }, [])
          | none =>
            some (s, { resp with code := CoapCode.CODE_205_CONTENT
                                 payload := led_value_get ct_to_use s.led3_is_on }, [])
      | none =>
        some (s, { resp with code := CoapCode.CODE_205_CONTENT
                             payload := led_value_get ct_to_use s.led3_is_on }, [])
  | CoapCode.PUT =>
    match req.payload[0]? with
    | none => none
    | some command =>
      let led2 :=
        if command = COMMAND_ON then true
        else if command = COMMAND_OFF then false
        else if command = COMMAND_TOGGLE then ! s.led3_is_on
        else s.led3_is_on
      let rcode :=
        if command = COMMAND_ON ∨ command = COMMAND_OFF ∨ command = COMMAND_TOGGLE then
          CoapCode.CODE_204_CHANGED
        else
          CoapCode.CODE_400_BAD_REQUEST
      let s1 := { s with led3_is_on := led2 }
      let r := notify_all_led3_subscribers CoapMsgType.NON s1
      some (r.1, { resp with code := rcode }, r.2)
  | _ =>
    some (s, resp, [])

/-- Transmission outcomes delivered to `observer_con_message_callback`. -/
inductive CoapTransmissionStatus where
  | RESET_BY_PEER
  | TIMEOUT
  | OTHER_STATUS
deriving DecidableEq

/-- Function `observer_con_message_callback`: on `COAP_TRANSMISSION_RESET_BY_PEER`
(falling through) and `COAP_TRANSMISSION_TIMEOUT`, search the registry for
the observer's (remote, resource) pair and unregister the hit; both lookups
sit under `APP_ERROR_CHECK`, so a failed search halts the program (`none`
here). Any other status leaves the registry alone. -/
def observer_con_message_callback (status : CoapTransmissionStatus)
    (p_observer : CoapObserver) (registry : List CoapObserver) :
    Option (List CoapObserver) :=
  match status with
  | CoapTransmissionStatus.RESET_BY_PEER | CoapTransmissionStatus.TIMEOUT =>
    match coap_observe_server_search registry p_observer.remote
            p_observer.resource_id with
    | some handle => some (coap_observe_server_unregister registry handle)
    | none => none
  | _ => some registry

/-- Iterated scheduler ticks, collecting every notification sent. -/
def tick_run : Nat → AppState → AppState × List CoapMessage
  | 0, s => (s, [])
  | n + 1, s =>
    let r := app_coap_time_tick s
    let r2 := tick_run n r.1
    (r2.1, r.2 ++ r2.2)

/-- The search predicate on registry entries for a (remote, resource) pair. -/
def search_match (remote : CoapRemote) (resource_id : Nat)
    (o : CoapObserver) : Bool :=
  decide (o.remote = remote ∧ o.resource_id = resource_id)

/- Concrete fixtures used by counterexamples and witnesses. -/

def remote_a : CoapRemote := { addr := [0x20, 0x01], port_number := 5683 }

def remote_b : CoapRemote := { addr := [0x20, 0x02], port_number := 5683 }

def observer_a : CoapObserver :=
  { remote := remote_a, token := [0xAA], resource_id := LED3_RESOURCE_ID,
    ct := CoapContentType.PLAIN_TEXT }

def observer_b : CoapObserver :=
  { remote := remote_b, token := [0xBB], resource_id := LED3_RESOURCE_ID,
    ct := CoapContentType.APP_JSON }

/-- A second observer from `remote_a` holding a different token — the
registry admits both, since entry identity is the (resource, remote,
token) tuple. -/
def observer_a2 : CoapObserver :=
  { remote := remote_a, token := [0xCC], resource_id := LED3_RESOURCE_ID,
    ct := CoapContentType.PLAIN_TEXT }

/-- Boot-like state: LED off, counter 0, one plain-text observer, a full
countdown of `max_age = 15`, no scheduled pass yet. -/
def state_one_observer : AppState :=
  { led3_is_on := false, observer_sequence_num := 0, registry := [observer_a],
    expire_time := 15, max_age := 15, msg_count := 0 }

/-- Same state with the countdown mid-way (7 of 15 seconds left). -/
def state_mid_countdown : AppState :=
  { state_one_observer with expire_time := 7 }

/-- Same state with two observers (plain text and JSON). -/
def state_two_observers : AppState :=
  { state_one_observer with registry := [observer_a, observer_b] }

/-- Countdown already at the low-water mark, no scheduled pass counted. -/
def state_at_lowwater : AppState :=
  { state_one_observer with expire_time := 2 }

/-- Countdown at the low-water mark with three scheduled passes behind it,
i.e. the state at which the 4th scheduled pass fires. -/
def state_fourth_pass : AppState :=
  { state_one_observer with expire_time := 2, msg_count := 3 }

/-- Countdown above the low-water mark. -/
def state_above_lowwater : AppState :=
  { state_one_observer with expire_time := 5 }

/-- A confirmable PUT whose payload byte `0x35` is no command. -/
def put_bad_payload_request : CoapRequest :=
  { type := CoapMsgType.CON, code := CoapCode.PUT, id := 7, token := [0x01],
    payload := [0x35], accept := [], observe := none, remote := remote_a }

/-- A confirmable PUT carrying the toggle command `0x32`. -/
def put_toggle_request : CoapRequest :=
  { type := CoapMsgType.CON, code := CoapCode.PUT, id := 8, token := [0x02],
    payload := [0x32], accept := [], observe := none, remote := remote_a }

/-- A PUT with an empty payload. -/
def put_empty_request : CoapRequest :=
  { type := CoapMsgType.CON, code := CoapCode.PUT, id := 9, token := [0x03],
    payload := [], accept := [], observe := none, remote := remote_a }

/-- A non-confirmable GET whose only accepted format the resource does not
support. -/
def get_non_mismatch_request : CoapRequest :=
  { type := CoapMsgType.NON, code := CoapCode.GET, id := 1, token := [0x04],
    payload := [], accept := [CoapContentType.APP_LINK_FORMAT], observe := none,
    remote := remote_a }

/-- A confirmable GET whose only accepted format the resource does not
support. -/
def get_con_mismatch_request : CoapRequest :=
  { type := CoapMsgType.CON, code := CoapCode.GET, id := 2, token := [0x05],
    payload := [], accept := [CoapContentType.OTHER_CT], observe := none,
    remote := remote_a }

/-- A registration GET (Observe = 0) from `remote_b`. -/
def get_observe0_request : CoapRequest :=
  { type := CoapMsgType.CON, code := CoapCode.GET, id := 3, token := [0xBB],
    payload := [], accept := [CoapContentType.PLAIN_TEXT], observe := some 0,
    remote := remote_b }

/-- A deregistration GET (Observe = 1) from `remote_a`. -/
def get_observe1_request : CoapRequest :=
  { type := CoapMsgType.CON, code := CoapCode.GET, id := 4, token := [0xAA],
    payload := [], accept := [CoapContentType.PLAIN_TEXT], observe := some 1,
    remote := remote_a }

/-- A plain GET (no Observe option) accepting plain text. -/
def get_plain_request : CoapRequest :=
  { type := CoapMsgType.CON, code := CoapCode.GET, id := 5, token := [0x06],
    payload := [], accept := [CoapContentType.PLAIN_TEXT], observe := none,
    remote := remote_a }

theorem uint32_mod_pos : 0 < UINT32_MOD := by decide

theorem notify_loop_length (ty : CoapMsgType) (led : Bool) (e : Nat)
    (obs : List CoapObserver) : ∀ (seq : Nat),
    (notify_loop ty led e seq obs).2.length = obs.length := by
  induction obs with
  | nil => intro seq; rfl
  | cons o rest ih => intro seq; simp [notify_loop, ih]

theorem notify_loop_final_seq (ty : CoapMsgType) (led : Bool) (e : Nat)
    (obs : List CoapObserver) : ∀ (seq : Nat), seq < UINT32_MOD →
    (notify_loop ty led e seq obs).1 = (seq + obs.length) % UINT32_MOD := by
  induction obs with
  | nil =>
    intro seq h
    simp [notify_loop, Nat.mod_eq_of_lt h]
  | cons o rest ih =>
    intro seq h
    simp only [notify_loop]
    rw [ih _ (Nat.mod_lt _ uint32_mod_pos)]
    rw [Nat.mod_add_mod]
    congr 1
    simp [List.length_cons]
    omega

theorem notify_loop_getElem (ty : CoapMsgType) (led : Bool) (e : Nat)
    (obs : List CoapObserver) : ∀ (seq : Nat), seq < UINT32_MOD →
    ∀ (i : Nat) (ob : CoapObserver), obs[i]? = some ob →
    (notify_loop ty led e seq obs).2[i]? =
      some (notify_observer_message ty ((seq + i) % UINT32_MOD) e led ob) := by
  induction obs with
  | nil =>
    intro seq _ i ob hob
    simp at hob
  | cons o rest ih =>
    intro seq h i ob hob
    cases i with
    | zero =>
      simp at hob
      subst hob
      simp [notify_loop, Nat.mod_eq_of_lt h]
    | succ j =>
      simp only [List.getElem?_cons_succ] at hob
      simp only [notify_loop, List.getElem?_cons_succ]
      rw [ih _ (Nat.mod_lt _ uint32_mod_pos) j ob hob]
      rw [Nat.mod_add_mod]
      congr 3
      omega

theorem notify_loop_types (ty : CoapMsgType) (led : Bool) (e : Nat)
    (obs : List CoapObserver) : ∀ (seq : Nat) (m : CoapMessage),
    m ∈ (notify_loop ty led e seq obs).2 → m.type = ty := by
  induction obs with
  | nil =>
    intro seq m hm
    simp [notify_loop] at hm
  | cons o rest ih =>
    intro seq m hm
    simp only [notify_loop, List.mem_cons] at hm
    cases hm with
    | inl hm => subst hm; rfl
    | inr hm => exact ih _ m hm

theorem search_eq_none_iff (remote : CoapRemote) (resource_id : Nat) :
    ∀ (l : List CoapObserver),
    coap_observe_server_search l remote resource_id = none ↔
      ∀ o ∈ l, ¬(o.remote = remote ∧ o.resource_id = resource_id) := by
  intro l
  induction l with
  | nil => simp [coap_observe_server_search]
  | cons o rest ih =>
    by_cases h : o.remote = remote ∧ o.resource_id = resource_id
    · simp [coap_observe_server_search, h]
    · simp only [coap_observe_server_search, if_neg h, Option.map_eq_none', ih,
        List.mem_cons]
      constructor
      · intro hall x hx
        cases hx with
        | inl hx => subst hx; exact h
        | inr hx => exact hall x hx
      · intro hall x hx
        exact hall x (Or.inr hx)

theorem search_isSome_of_mem (remote : CoapRemote) (resource_id : Nat)
    (l : List CoapObserver) (ob : CoapObserver) (hmem : ob ∈ l)
    (hr : ob.remote = remote) (hi : ob.resource_id = resource_id) :
    ∃ handle, coap_observe_server_search l remote resource_id = some handle := by
  cases hs : coap_observe_server_search l remote resource_id with
  | none =>
    exact absurd ⟨hr, hi⟩ ((search_eq_none_iff remote resource_id l).mp hs ob hmem)
  | some handle => exact ⟨handle, rfl⟩

theorem search_erase_eq_none (remote : CoapRemote) (resource_id : Nat) :
    ∀ (l : List CoapObserver),
    l.countP (search_match remote resource_id) ≤ 1 →
    ∀ (i : Nat), coap_observe_server_search l remote resource_id = some i →
    coap_observe_server_search (l.eraseIdx i) remote resource_id = none := by
  intro l
  induction l with
  | nil =>
    intro _ i hi
    simp [coap_observe_server_search] at hi
  | cons o rest ih =>
    intro hcount i hi
    simp only [coap_observe_server_search] at hi
    split at hi
    case isTrue h =>
      have hi0 : i = 0 := by
        injection hi with hi'
        exact hi'.symm
      subst hi0
      have herase : (o :: rest).eraseIdx 0 = rest := rfl
      rw [herase, search_eq_none_iff]
      intro x hx hpx
      have hpos : 0 < rest.countP (search_match remote resource_id) :=
        List.countP_pos_iff.mpr ⟨x, hx, by simp [search_match, hpx]⟩
      have hhead : search_match remote resource_id o = true := by
        simp [search_match, h]
      rw [List.countP_cons_of_pos _ _ hhead] at hcount
      omega
    case isFalse h =>
      rw [Option.map_eq_some'] at hi
      obtain ⟨j, hj, hji⟩ := hi
      subst hji
      have hhead : ¬(search_match remote resource_id o = true) := by
        simp only [search_match, decide_eq_true_eq]
        exact h
      rw [List.countP_cons_of_neg _ _ hhead] at hcount
      have herase : (o :: rest).eraseIdx (j + 1) = o :: rest.eraseIdx j := rfl
      rw [herase]
      have hstep : coap_observe_server_search (o :: rest.eraseIdx j) remote resource_id
          = (coap_observe_server_search (rest.eraseIdx j) remote resource_id).map
              (fun h => h + 1) := by
        simp only [coap_observe_server_search]
        rw [if_neg h]
      rw [hstep, ih hcount j hj]
      rfl

theorem notify_all_length (ty : CoapMsgType) (s : AppState) :
    (notify_all_led3_subscribers ty s).2.length
      = (observers_of s.registry LED3_RESOURCE_ID).length :=
  notify_loop_length ty s.led3_is_on s.expire_time
    (observers_of s.registry LED3_RESOURCE_ID) s.observer_sequence_num

theorem notify_all_types (ty : CoapMsgType) (s : AppState) :
    ∀ m ∈ (notify_all_led3_subscribers ty s).2, m.type = ty :=
  fun m hm =>
    notify_loop_types ty s.led3_is_on s.expire_time
      (observers_of s.registry LED3_RESOURCE_ID) s.observer_sequence_num m hm

theorem notify_all_getElem (ty : CoapMsgType) (s : AppState)
    (hseq : s.observer_sequence_num < UINT32_MOD) (i : Nat) (ob : CoapObserver)
    (hob : (observers_of s.registry LED3_RESOURCE_ID)[i]? = some ob) :
    (notify_all_led3_subscribers ty s).2[i]? =
      some (notify_observer_message ty ((s.observer_sequence_num + i) % UINT32_MOD)
        s.expire_time s.led3_is_on ob) :=
  notify_loop_getElem ty s.led3_is_on s.expire_time
    (observers_of s.registry LED3_RESOURCE_ID) s.observer_sequence_num hseq i ob hob

/-- C1 — the claim as stated is false: a PUT whose payload byte `0x35` is
outside `{0x30, 0x31, 0x32}` is answered 4.00 Bad Request, yet
`led3_callback` still runs `notify_all_led3_subscribers` (the call sits
behind `if (p_request->header.code == COAP_CODE_PUT)` with no validity
check), so a notification pass over the one registered observer fires. -/
theorem C1_counterexample :
    (led3_callback 4 put_bad_payload_request state_one_observer).map
        (fun r => (r.2.1.code, r.2.2.length))
      = some (CoapCode.CODE_400_BAD_REQUEST, 1) := by decide

/-- C1 (amended) — for every PUT whose payload is readable, the response is
2.04 Changed when the first byte is a command and 4.00 Bad Request
otherwise, and in BOTH cases an immediate best-effort (NON) notification
pass over all observers of `/lights/led3` fires. -/
theorem C1_put_response_and_notification (capacity : Nat) (req : CoapRequest)
    (s : AppState) (hput : req.code = CoapCode.PUT) (b : Nat)
    (hb : req.payload[0]? = some b) :
    ∃ s2 resp msgs, led3_callback capacity req s = some (s2, resp, msgs) ∧
      resp.code = (if b = COMMAND_ON ∨ b = COMMAND_OFF ∨ b = COMMAND_TOGGLE
                   then CoapCode.CODE_204_CHANGED
                   else CoapCode.CODE_400_BAD_REQUEST) ∧
      msgs.length = (observers_of s.registry LED3_RESOURCE_ID).length ∧
      (∀ m ∈ msgs, m.type = CoapMsgType.NON) := by
  obtain ⟨ty, code, id, token, payload, accept, observe, rem⟩ := req
  simp only at hput hb
  subst hput
  simp only [led3_callback, hb]
  refine ⟨_, _, _, rfl, rfl, ?_, ?_⟩
  · exact notify_all_length CoapMsgType.NON _
  · exact notify_all_types CoapMsgType.NON _

/-- C1 witness: the amended statement at the toggle request `0x32` on the
boot state — 2.04 Changed and one NON notification. -/
theorem C1_put_response_and_notification_witness :
    put_toggle_request.code = CoapCode.PUT ∧
    put_toggle_request.payload[0]? = some 0x32 ∧
    ∃ s2 resp msgs,
      led3_callback 4 put_toggle_request state_one_observer = some (s2, resp, msgs) ∧
      resp.code = (if 0x32 = COMMAND_ON ∨ 0x32 = COMMAND_OFF ∨ 0x32 = COMMAND_TOGGLE
                   then CoapCode.CODE_204_CHANGED
                   else CoapCode.CODE_400_BAD_REQUEST) ∧
      msgs.length = (observers_of state_one_observer.registry LED3_RESOURCE_ID).length ∧
      (∀ m ∈ msgs, m.type = CoapMsgType.NON) :=
  ⟨by decide, by decide,
   C1_put_response_and_notification 4 put_toggle_request state_one_observer
     (by decide) 0x32 (by decide)⟩

/-- C2 — the claim as stated is false: with the countdown mid-way
(`expire_time = 7`, `max_age = 15`), the notification built for the one
observer carries Max-Age 7, the countdown `m_led3.expire_time`, not the
resource's `max_age` 15 (`notify_all_led3_subscribers` passes
`m_led3.expire_time` to `coap_message_opt_uint_add`). -/
theorem C2_counterexample :
    ((notify_all_led3_subscribers CoapMsgType.NON state_mid_countdown).2.map
        (fun m => m.options))
      = [[(COAP_OPT_OBSERVE, 0), (COAP_OPT_MAX_AGE, 7)]] ∧
    state_mid_countdown.max_age = 15 := by decide

/-- C2 (amended) — every notification message sent to an observer carries
the current global sequence counter (post-increment: message `i` of a pass
carries `counter + i`, and the counter ends `length` higher) in its Observe
option, the resource's CURRENT `expire_time` countdown (not `max_age`) in
its Max-Age option, and a payload serialized according to that observer's
negotiated content type. -/
theorem C2_notification_fields (ty : CoapMsgType) (s : AppState)
    (hseq : s.observer_sequence_num < UINT32_MOD) (i : Nat) (ob : CoapObserver)
    (hob : (observers_of s.registry LED3_RESOURCE_ID)[i]? = some ob) :
    ∃ m, (notify_all_led3_subscribers ty s).2[i]? = some m ∧
      m.options = [(COAP_OPT_OBSERVE, (s.observer_sequence_num + i) % UINT32_MOD),
                   (COAP_OPT_MAX_AGE, s.expire_time)] ∧
      m.payload = led_value_get ob.ct s.led3_is_on ∧
      m.remote = ob.remote ∧
      (notify_all_led3_subscribers ty s).1.observer_sequence_num
        = (s.observer_sequence_num
            + (notify_all_led3_subscribers ty s).2.length) % UINT32_MOD := by
  refine ⟨_, notify_all_getElem ty s hseq i ob hob, rfl, rfl, rfl, ?_⟩
  rw [notify_all_length]
  exact notify_loop_final_seq ty s.led3_is_on s.expire_time
    (observers_of s.registry LED3_RESOURCE_ID) s.observer_sequence_num hseq

/-- C2 witness: the amended statement at the mid-countdown state, observer
0 — Observe value 0, Max-Age 7, plain-text payload `"0"`. -/
theorem C2_notification_fields_witness :
    state_mid_countdown.observer_sequence_num < UINT32_MOD ∧
    (observers_of state_mid_countdown.registry LED3_RESOURCE_ID)[0]?
      = some observer_a ∧
    ∃ m, (notify_all_led3_subscribers CoapMsgType.NON state_mid_countdown).2[0]?
        = some m ∧
      m.options = [(COAP_OPT_OBSERVE,
                      (state_mid_countdown.observer_sequence_num + 0) % UINT32_MOD),
                   (COAP_OPT_MAX_AGE, state_mid_countdown.expire_time)] ∧
      m.payload = led_value_get observer_a.ct state_mid_countdown.led3_is_on ∧
      m.remote = observer_a.remote ∧
      (notify_all_led3_subscribers CoapMsgType.NON state_mid_countdown).1.observer_sequence_num
        = (state_mid_countdown.observer_sequence_num
            + (notify_all_led3_subscribers CoapMsgType.NON
                state_mid_countdown).2.length) % UINT32_MOD :=
  ⟨by decide, by decide,
   C2_notification_fields CoapMsgType.NON state_mid_countdown (by decide) 0
     observer_a (by decide)⟩

theorem observe_seq_mod_eq : OBSERVE_SEQ_MOD = 16777216 := by
  norm_num [OBSERVE_SEQ_MOD]

theorem observe_seq_mod_dvd_uint32_mod : OBSERVE_SEQ_MOD ∣ UINT32_MOD :=
  ⟨2 ^ 8, by norm_num [OBSERVE_SEQ_MOD, UINT32_MOD]⟩

/-- Going from a counter value `a` to `a + 1` advances the value seen
modulo `2 ^ 24` by exactly one step. -/
theorem observe_seq_step (a : Nat) :
    ((a + 1) % OBSERVE_SEQ_MOD + OBSERVE_SEQ_MOD - a % OBSERVE_SEQ_MOD)
      % OBSERVE_SEQ_MOD = 1 := by
  rw [observe_seq_mod_eq]
  omega

/-- The led3 callback leaves the scheduler's pass counter `msg_count`
untouched on every request (cadence counts only scheduler-driven passes). -/
theorem led3_callback_preserves_msg_count (capacity : Nat) (req : CoapRequest)
    (s : AppState) (r : AppState × CoapMessage × List CoapMessage)
    (hcall : led3_callback capacity req s = some r) :
    r.1.msg_count = s.msg_count := by
  obtain ⟨ty, code, id, token, payload, accept, observe, rem⟩ := req
  cases code <;>
    (simp only [led3_callback] at hcall;
     repeat' split at hcall) <;>
    first
      | (cases hcall; rfl)
      | exact Option.noConfusion hcall

/-- The led3 callback leaves the sequence counter unchanged on a GET
carrying no Observe option (whatever the negotiation outcome). -/
theorem led3_callback_get_plain_preserves_seq (capacity : Nat)
    (req : CoapRequest) (s : AppState)
    (r : AppState × CoapMessage × List CoapMessage)
    (hget : req.code = CoapCode.GET) (hobs : req.observe = none)
    (hcall : led3_callback capacity req s = some r) :
    r.1.observer_sequence_num = s.observer_sequence_num := by
  obtain ⟨ty, code, id, token, payload, accept, observe, rem⟩ := req
  simp only at hget hobs
  subst hget
  subst hobs
  simp only [led3_callback] at hcall
  repeat' split at hcall
  all_goals cases hcall
  all_goals rfl

/-- C3 — (a) one pass advances `m_observer_sequence_num` by exactly the
number of notification messages sent (one post-increment per message, as a
`uint32_t`); (b) message `i` of a pass carries Observe value
`(counter + i) mod 2 ^ 32`, so two successive notifications carry values
one step apart modulo `2 ^ 24` — strictly increasing in the RFC7641 sense;
(c) a GET without Observe never touches the counter. -/
theorem C3_sequence_counter (ty : CoapMsgType) (s : AppState)
    (hseq : s.observer_sequence_num < UINT32_MOD) :
    ((notify_all_led3_subscribers ty s).1.observer_sequence_num
      = (s.observer_sequence_num
          + (notify_all_led3_subscribers ty s).2.length) % UINT32_MOD)
    ∧ (∀ i m1 m2, (notify_all_led3_subscribers ty s).2[i]? = some m1 →
        (notify_all_led3_subscribers ty s).2[i + 1]? = some m2 →
        ∀ v1 v2, m1.options[0]? = some (COAP_OPT_OBSERVE, v1) →
          m2.options[0]? = some (COAP_OPT_OBSERVE, v2) →
          (v2 % OBSERVE_SEQ_MOD + OBSERVE_SEQ_MOD - v1 % OBSERVE_SEQ_MOD)
            % OBSERVE_SEQ_MOD = 1)
    ∧ (∀ capacity req r, req.code = CoapCode.GET → req.observe = none →
        led3_callback capacity req s = some r →
        r.1.observer_sequence_num = s.observer_sequence_num) := by
  refine ⟨?_, ?_, ?_⟩
  · rw [notify_all_length]
    exact notify_loop_final_seq ty s.led3_is_on s.expire_time
      (observers_of s.registry LED3_RESOURCE_ID) s.observer_sequence_num hseq
  · intro i m1 m2 hm1 hm2 v1 v2 hv1 hv2
    have hlen := notify_all_length ty s
    obtain ⟨hi1, -⟩ := List.getElem?_eq_some_iff.mp hm1
    obtain ⟨hi2, -⟩ := List.getElem?_eq_some_iff.mp hm2
    rw [hlen] at hi1 hi2
    have hob1 := List.getElem?_eq_getElem hi1
    have hob2 := List.getElem?_eq_getElem hi2
    rw [notify_all_getElem ty s hseq i _ hob1] at hm1
    rw [notify_all_getElem ty s hseq (i + 1) _ hob2] at hm2
    cases hm1
    cases hm2
    simp only [notify_observer_message, List.getElem?_cons_zero,
      Option.some.injEq, Prod.mk.injEq] at hv1 hv2
    rw [← hv1.2, ← hv2.2]
    rw [Nat.mod_mod_of_dvd _ observe_seq_mod_dvd_uint32_mod,
        Nat.mod_mod_of_dvd _ observe_seq_mod_dvd_uint32_mod]
    have := observe_seq_step (s.observer_sequence_num + i)
    simpa [Nat.add_assoc] using this
  · intro capacity req r hget hobs hcall
    exact led3_callback_get_plain_preserves_seq capacity req s r hget hobs hcall

/-- C3 witness: the statement instantiated at the two-observer state. -/
theorem C3_sequence_counter_witness :
    state_two_observers.observer_sequence_num < UINT32_MOD ∧
    (((notify_all_led3_subscribers CoapMsgType.NON state_two_observers).1.observer_sequence_num
      = (state_two_observers.observer_sequence_num
          + (notify_all_led3_subscribers CoapMsgType.NON state_two_observers).2.length)
            % UINT32_MOD)
    ∧ (∀ i m1 m2,
        (notify_all_led3_subscribers CoapMsgType.NON state_two_observers).2[i]? = some m1 →
        (notify_all_led3_subscribers CoapMsgType.NON state_two_observers).2[i + 1]? = some m2 →
        ∀ v1 v2, m1.options[0]? = some (COAP_OPT_OBSERVE, v1) →
          m2.options[0]? = some (COAP_OPT_OBSERVE, v2) →
          (v2 % OBSERVE_SEQ_MOD + OBSERVE_SEQ_MOD - v1 % OBSERVE_SEQ_MOD)
            % OBSERVE_SEQ_MOD = 1)
    ∧ (∀ capacity req r, req.code = CoapCode.GET → req.observe = none →
        led3_callback capacity req state_two_observers = some r →
        r.1.observer_sequence_num = state_two_observers.observer_sequence_num)) :=
  ⟨by decide, C3_sequence_counter CoapMsgType.NON state_two_observers (by decide)⟩

/-- When a tick arrives with the countdown at or below the low-water mark,
the scheduler resets the countdown to `max_age`, advances `msg_count`, and
fires one message per observer of the resource, confirmable when
`msg_count % 4 == 0` and best-effort otherwise. -/
theorem app_coap_time_tick_fires (s : AppState)
    (h : s.expire_time ≤ OBSERVE_NOTIFY_DELTA_MAX_AGE) :
    (app_coap_time_tick s).1.expire_time = s.max_age ∧
    (app_coap_time_tick s).1.msg_count = s.msg_count + 1 ∧
    (app_coap_time_tick s).2.length
      = (observers_of s.registry LED3_RESOURCE_ID).length ∧
    (∀ m ∈ (app_coap_time_tick s).2,
      m.type = (if s.msg_count % 4 = 0 then CoapMsgType.CON
                else CoapMsgType.NON)) := by
  have h' : s.expire_time ≤ 0 + OBSERVE_NOTIFY_DELTA_MAX_AGE := by omega
  by_cases hc : s.msg_count % 4 = 0
  · have hfire : app_coap_time_tick s
        = ({ (notify_all_led3_subscribers CoapMsgType.CON
                { s with expire_time := s.max_age }).1
              with msg_count := s.msg_count + 1 },
           (notify_all_led3_subscribers CoapMsgType.CON
              { s with expire_time := s.max_age }).2) := by
      simp only [app_coap_time_tick, if_pos h', if_pos hc]
    rw [hfire]
    refine ⟨rfl, rfl, notify_all_length CoapMsgType.CON _, ?_⟩
    intro m hm
    rw [if_pos hc]
    exact notify_all_types CoapMsgType.CON _ m hm
  · have hfire : app_coap_time_tick s
        = ({ (notify_all_led3_subscribers CoapMsgType.NON
                { s with expire_time := s.max_age }).1
              with msg_count := s.msg_count + 1 },
           (notify_all_led3_subscribers CoapMsgType.NON
              { s with expire_time := s.max_age }).2) := by
      simp only [app_coap_time_tick, if_pos h', if_neg hc]
    rw [hfire]
    refine ⟨rfl, rfl, notify_all_length CoapMsgType.NON _, ?_⟩
    intro m hm
    rw [if_neg hc]
    exact notify_all_types CoapMsgType.NON _ m hm

/-- C4 — in general, a tick that sees the countdown at or below the
low-water mark 2 resets it to `max_age` and emits one message per observer
of `/lights/led3`; concretely, from the full countdown 15, thirteen ticks
bring the countdown to 2 with no pass fired on the way, and the tick taken
at that point fires one pass (one message for the one observer) and leaves
the countdown reset to 15. -/
theorem C4_scheduler (s : AppState)
    (h : s.expire_time ≤ OBSERVE_NOTIFY_DELTA_MAX_AGE) :
    ((app_coap_time_tick s).1.expire_time = s.max_age ∧
     (app_coap_time_tick s).2.length
       = (observers_of s.registry LED3_RESOURCE_ID).length)
    ∧ ((tick_run 13 state_one_observer).1.expire_time = 2
       ∧ (tick_run 13 state_one_observer).2 = []
       ∧ (tick_run 14 state_one_observer).1.expire_time = 15
       ∧ (tick_run 14 state_one_observer).2.length = 1) :=
  ⟨⟨(app_coap_time_tick_fires s h).1, (app_coap_time_tick_fires s h).2.2.1⟩,
   by decide⟩

/-- C4 witness: the statement at the state whose countdown sits at the
low-water mark. -/
theorem C4_scheduler_witness :
    state_at_lowwater.expire_time ≤ OBSERVE_NOTIFY_DELTA_MAX_AGE ∧
    (((app_coap_time_tick state_at_lowwater).1.expire_time
        = state_at_lowwater.max_age ∧
      (app_coap_time_tick state_at_lowwater).2.length
        = (observers_of state_at_lowwater.registry LED3_RESOURCE_ID).length)
     ∧ ((tick_run 13 state_one_observer).1.expire_time = 2
        ∧ (tick_run 13 state_one_observer).2 = []
        ∧ (tick_run 14 state_one_observer).1.expire_time = 15
        ∧ (tick_run 14 state_one_observer).2.length = 1)) :=
  ⟨by decide, C4_scheduler state_at_lowwater (by decide)⟩

/-- C5 — the claim as stated is false: with no scheduled pass counted yet
(`msg_count = 0`, as at boot), the FIRST scheduled pass already uses
confirmable delivery (`0 % 4 == 0`), while the claim reserves confirmable
delivery for every 4th pass; and from `msg_count = 3` the 4th scheduled
pass uses best-effort delivery. -/
theorem C5_counterexample :
    state_at_lowwater.msg_count = 0 ∧
    ((app_coap_time_tick state_at_lowwater).2.map (fun m => m.type)
      = [CoapMsgType.CON]) ∧
    state_fourth_pass.msg_count = 3 ∧
    ((app_coap_time_tick state_fourth_pass).2.map (fun m => m.type)
      = [CoapMsgType.NON]) := by decide

/-- C5 (amended) — scheduled passes are numbered by `msg_count`, which
only scheduler-driven passes advance (PUT- and button-triggered passes
leave it alone): the pass fired at `msg_count ≡ 0 (mod 4)` — the 1st, 5th,
9th, … — is confirmable and the other three of each cycle are best-effort. -/
theorem C5_cadence (s : AppState) :
    (s.expire_time ≤ OBSERVE_NOTIFY_DELTA_MAX_AGE →
      ((app_coap_time_tick s).1.msg_count = s.msg_count + 1 ∧
       ∀ m ∈ (app_coap_time_tick s).2,
         m.type = (if s.msg_count % 4 = 0 then CoapMsgType.CON
                   else CoapMsgType.NON)))
    ∧ (OBSERVE_NOTIFY_DELTA_MAX_AGE < s.expire_time →
      ((app_coap_time_tick s).1.msg_count = s.msg_count ∧
       (app_coap_time_tick s).2 = []))
    ∧ (∀ capacity req r, led3_callback capacity req s = some r →
        r.1.msg_count = s.msg_count) := by
  refine ⟨fun h => ⟨(app_coap_time_tick_fires s h).2.1,
                    (app_coap_time_tick_fires s h).2.2.2⟩,
          fun h => ?_, ?_⟩
  · have h' : ¬(s.expire_time ≤ 0 + OBSERVE_NOTIFY_DELTA_MAX_AGE) := by omega
    refine ⟨?_, ?_⟩ <;> simp only [app_coap_time_tick, if_neg h']
  · intro capacity req r hcall
    exact led3_callback_preserves_msg_count capacity req s r hcall

/-- C5 witness: the cadence statement exercised at the low-water state
(fires, counter advances) and above the low-water mark (no pass). -/
theorem C5_cadence_witness :
    (state_at_lowwater.expire_time ≤ OBSERVE_NOTIFY_DELTA_MAX_AGE ∧
     ((app_coap_time_tick state_at_lowwater).1.msg_count
        = state_at_lowwater.msg_count + 1 ∧
      ∀ m ∈ (app_coap_time_tick state_at_lowwater).2,
        m.type = (if state_at_lowwater.msg_count % 4 = 0 then CoapMsgType.CON
                  else CoapMsgType.NON))) ∧
    (OBSERVE_NOTIFY_DELTA_MAX_AGE < state_above_lowwater.expire_time ∧
     ((app_coap_time_tick state_above_lowwater).1.msg_count
        = state_above_lowwater.msg_count ∧
      (app_coap_time_tick state_above_lowwater).2 = [])) :=
  ⟨⟨by decide, (C5_cadence state_at_lowwater).1 (by decide)⟩,
   ⟨by decide, (C5_cadence state_above_lowwater).2.1 (by decide)⟩⟩

/-- C6 — the claim as stated is false: a NON (non-confirmable) GET whose
Accept set misses the resource's support mask is answered 4.15 with message
type RST even though the request was not confirmable — `led3_callback` sets
`p_response->header.type = COAP_TYPE_RST` unconditionally on negotiation
failure, so "RST if and only if the request was confirmable" fails in the
only-if direction. -/
theorem C6_counterexample :
    (led3_callback 4 get_non_mismatch_request state_one_observer).map
        (fun r => (r.2.1.code, r.2.1.type))
      = some (CoapCode.CODE_415_UNSUPPORTED_CONTENT_FORMAT, CoapMsgType.RST) ∧
    get_non_mismatch_request.type ≠ CoapMsgType.CON := by decide

/-- C6 (amended) — every GET whose (non-empty) Accept set has an empty
intersection with the resource's supported mask is answered 4.15
Unsupported Content-Format with message type RST, whatever the request
type; state and registry are untouched and no payload, options or
notifications are produced. -/
theorem C6_unsupported_accept (capacity : Nat) (req : CoapRequest)
    (s : AppState) (hget : req.code = CoapCode.GET) (hacc : req.accept ≠ [])
    (hmm : coap_message_ct_match_select req.accept led3_ct_support_mask = none) :
    led3_callback capacity req s =
      some (s, { base_response req with
                   code := CoapCode.CODE_415_UNSUPPORTED_CONTENT_FORMAT
                   type := CoapMsgType.RST }, []) := by
  obtain ⟨ty, code, id, token, payload, accept, observe, rem⟩ := req
  simp only at hget hmm
  subst hget
  simp only [led3_callback, hmm]

/-- C6 witness: the amended statement at a confirmable mismatching GET. -/
theorem C6_unsupported_accept_witness :
    get_con_mismatch_request.code = CoapCode.GET ∧
    get_con_mismatch_request.accept ≠ [] ∧
    coap_message_ct_match_select get_con_mismatch_request.accept
      led3_ct_support_mask = none ∧
    led3_callback 4 get_con_mismatch_request state_one_observer =
      some (state_one_observer,
            { base_response get_con_mismatch_request with
                code := CoapCode.CODE_415_UNSUPPORTED_CONTENT_FORMAT
                type := CoapMsgType.RST }, []) :=
  ⟨by decide, by decide, by decide,
   C6_unsupported_accept 4 get_con_mismatch_request state_one_observer
     (by decide) (by decide) (by decide)⟩

/-- C7 — the claim as stated is false: the completion callback re-searches
the registry by (remote, resource) only and unregisters the FIRST match,
so when one remote holds two observers with different tokens and the
confirmable notification of the SECOND one times out, the first entry is
removed and the associated observer survives into the next pass's
iteration. -/
theorem C7_counterexample :
    observer_con_message_callback CoapTransmissionStatus.TIMEOUT observer_a2
        [observer_a, observer_a2] = some [observer_a2] ∧
    observer_a2 ∈ observers_of [observer_a2] observer_a2.resource_id := by
  decide

/-- C7 (amended) — when a confirmable notification completes with
`TIMEOUT` or `RESET_BY_PEER`, `observer_con_message_callback` searches the
registry for the observer's (remote, resource) pair and unregisters the
first hit; provided the associated observer is registered and is the ONLY
entry for that pair (the search is keyed on the pair, not the token), the
resulting registry has no entry for the pair, so the next notification
pass over that resource reaches no observer at that remote. -/
theorem C7_con_failure_unregisters (status : CoapTransmissionStatus)
    (hstatus : status = CoapTransmissionStatus.TIMEOUT ∨
               status = CoapTransmissionStatus.RESET_BY_PEER)
    (registry : List CoapObserver) (ob : CoapObserver) (hmem : ob ∈ registry)
    (huniq : registry.countP (search_match ob.remote ob.resource_id) ≤ 1) :
    ∃ registry2,
      observer_con_message_callback status ob registry = some registry2 ∧
      coap_observe_server_search registry2 ob.remote ob.resource_id = none ∧
      ∀ o ∈ observers_of registry2 ob.resource_id, o.remote ≠ ob.remote := by
  obtain ⟨handle, hsearch⟩ :=
    search_isSome_of_mem ob.remote ob.resource_id registry ob hmem rfl rfl
  have hnone :=
    search_erase_eq_none ob.remote ob.resource_id registry huniq handle hsearch
  have hcb : observer_con_message_callback status ob registry
      = some (coap_observe_server_unregister registry handle) := by
    rcases hstatus with h | h <;> subst h <;>
      simp [observer_con_message_callback, hsearch]
  refine ⟨_, hcb, hnone, ?_⟩
  intro o hom heq
  have hmemf := List.mem_filter.mp hom
  have hres : o.resource_id = ob.resource_id := by simpa using hmemf.2
  exact (search_eq_none_iff ob.remote ob.resource_id _).mp hnone o hmemf.1
    ⟨heq, hres⟩

/-- C7 witness: a timeout for `observer_a` in the two-entry registry
removes the only entry for its (remote, resource) pair. -/
theorem C7_con_failure_unregisters_witness :
    (CoapTransmissionStatus.TIMEOUT = CoapTransmissionStatus.TIMEOUT ∨
     CoapTransmissionStatus.TIMEOUT = CoapTransmissionStatus.RESET_BY_PEER) ∧
    observer_a ∈ [observer_b, observer_a] ∧
    ([observer_b, observer_a].countP
      (search_match observer_a.remote observer_a.resource_id)) ≤ 1 ∧
    ∃ registry2,
      observer_con_message_callback CoapTransmissionStatus.TIMEOUT observer_a
        [observer_b, observer_a] = some registry2 ∧
      coap_observe_server_search registry2 observer_a.remote
        observer_a.resource_id = none ∧
      ∀ o ∈ observers_of registry2 observer_a.resource_id,
        o.remote ≠ observer_a.remote :=
  ⟨Or.inl rfl, by decide, by decide,
   C7_con_failure_unregisters CoapTransmissionStatus.TIMEOUT (Or.inl rfl)
     [observer_b, observer_a] observer_a (by decide) (by decide)⟩

/-- C8 — a registration GET (Observe = 0) arriving while the registry is at
capacity (and from a tuple not already registered, which would instead be
refreshed) fails with `Full` and is answered as an ordinary GET: the
response carries the 2.05 representation, no Observe (or any other) option,
and the state — in particular the registry — is returned unchanged. -/
theorem C8_registry_full (capacity : Nat) (req : CoapRequest) (s : AppState)
    (ct : CoapContentType) (hget : req.code = CoapCode.GET)
    (hobs : req.observe = some 0)
    (hct : coap_message_ct_match_select req.accept led3_ct_support_mask
             = some ct)
    (hfull : capacity ≤ s.registry.length)
    (hnew : s.registry.any (fun o => same_tuple o
        { remote := req.remote, token := req.token,
          resource_id := LED3_RESOURCE_ID, ct := ct }) = false) :
    led3_callback capacity req s =
      some (s, { base_response req with
                   code := CoapCode.CODE_205_CONTENT
                   payload := led_value_get ct s.led3_is_on }, []) := by
  obtain ⟨ty, code, id, token, payload, accept, observe, rem⟩ := req
  simp only at hget hobs hct hnew
  subst hget
  subst hobs
  simp [led3_callback, hct, coap_observe_server_register, hnew, hfull]

/-- C8 witness: capacity 1, registry holding `observer_a`, a registration
GET from `remote_b` — answered as an ordinary GET, registry unchanged. -/
theorem C8_registry_full_witness :
    get_observe0_request.code = CoapCode.GET ∧
    get_observe0_request.observe = some 0 ∧
    coap_message_ct_match_select get_observe0_request.accept
      led3_ct_support_mask = some CoapContentType.PLAIN_TEXT ∧
    1 ≤ state_one_observer.registry.length ∧
    state_one_observer.registry.any (fun o => same_tuple o
      { remote := get_observe0_request.remote,
        token := get_observe0_request.token,
        resource_id := LED3_RESOURCE_ID,
        ct := CoapContentType.PLAIN_TEXT }) = false ∧
    led3_callback 1 get_observe0_request state_one_observer =
      some (state_one_observer,
            { base_response get_observe0_request with
                code := CoapCode.CODE_205_CONTENT
                payload := led_value_get CoapContentType.PLAIN_TEXT
                             state_one_observer.led3_is_on }, []) :=
  ⟨by decide, by decide, by decide, by decide, by decide,
   C8_registry_full 1 get_observe0_request state_one_observer
     CoapContentType.PLAIN_TEXT (by decide) (by decide) (by decide)
     (by decide) (by decide)⟩

/-- C9 — a GET carrying Observe = 1 triggers a registry search for the
(remote, resource) pair; the hit, when the search succeeds, is
unregistered, and in either case the response is an ordinary GET: 2.05
with the resource representation as payload and no options (in particular
no Observe option). -/
theorem C9_observe_one_deregisters (capacity : Nat) (req : CoapRequest)
    (s : AppState) (ct : CoapContentType) (hget : req.code = CoapCode.GET)
    (hobs : req.observe = some 1)
    (hct : coap_message_ct_match_select req.accept led3_ct_support_mask
             = some ct) :
    (∀ handle,
      coap_observe_server_search s.registry req.remote LED3_RESOURCE_ID
          = some handle →
      led3_callback capacity req s =
        some ({ s with registry :=
                  coap_observe_server_unregister s.registry handle },
              { base_response req with
                  code := CoapCode.CODE_205_CONTENT
                  payload := led_value_get ct s.led3_is_on }, []))
    ∧ (coap_observe_server_search s.registry req.remote LED3_RESOURCE_ID
          = none →
      led3_callback capacity req s =
        some (s, { base_response req with
                     code := CoapCode.CODE_205_CONTENT
                     payload := led_value_get ct s.led3_is_on }, [])) := by
  obtain ⟨ty, code, id, token, payload, accept, observe, rem⟩ := req
  simp only at hget hobs hct
  subst hget
  subst hobs
  constructor
  · intro handle hsearch
    simp [led3_callback, hct, hsearch]
  · intro hsearch
    simp [led3_callback, hct, hsearch]

/-- C9 witness: a deregistration GET from `remote_a` against the registry
holding `observer_a` (the search succeeds at handle 0). -/
theorem C9_observe_one_deregisters_witness :
    get_observe1_request.code = CoapCode.GET ∧
    get_observe1_request.observe = some 1 ∧
    coap_message_ct_match_select get_observe1_request.accept
      led3_ct_support_mask = some CoapContentType.PLAIN_TEXT ∧
    coap_observe_server_search state_one_observer.registry
      get_observe1_request.remote LED3_RESOURCE_ID = some 0 ∧
    led3_callback 4 get_observe1_request state_one_observer =
      some ({ state_one_observer with registry :=
                coap_observe_server_unregister state_one_observer.registry 0 },
            { base_response get_observe1_request with
                code := CoapCode.CODE_205_CONTENT
                payload := led_value_get CoapContentType.PLAIN_TEXT
                             state_one_observer.led3_is_on }, []) :=
  ⟨by decide, by decide, by decide, by decide,
   (C9_observe_one_deregisters 4 get_observe1_request state_one_observer
      CoapContentType.PLAIN_TEXT (by decide) (by decide) (by decide)).1
     0 (by decide)⟩

/-- C10 — the PUT branch of `led3_callback` dereferences
`p_request->p_payload[0]` with no payload-length check: the embedded
fallible access (hence the whole callback) hits its error branch exactly
when the payload is empty, and the access is in bounds exactly when the
payload is non-empty. -/
theorem C10_put_reads_first_byte (capacity : Nat) (req : CoapRequest)
    (s : AppState) (hput : req.code = CoapCode.PUT) :
    (led3_callback capacity req s = none ↔ req.payload[0]? = none) ∧
    (req.payload[0]? = none ↔ req.payload = []) := by
  obtain ⟨ty, code, id, token, payload, accept, observe, rem⟩ := req
  simp only at hput
  subst hput
  constructor
  · cases hp : payload[0]? with
    | none => simp [led3_callback, hp]
    | some b => simp [led3_callback, hp]
  · cases payload <;> simp

/-- C10 witness: the empty-payload PUT reaches the out-of-bounds branch;
on it the callback's error case is exactly the empty payload. -/
theorem C10_put_reads_first_byte_witness :
    put_empty_request.code = CoapCode.PUT ∧
    ((led3_callback 4 put_empty_request state_one_observer = none ↔
        put_empty_request.payload[0]? = none) ∧
     (put_empty_request.payload[0]? = none ↔ put_empty_request.payload = [])) :=
  ⟨by decide,
   C10_put_reads_first_byte 4 put_empty_request state_one_observer (by decide)⟩

end ServerObserve
